import Mathlib

set_option maxRecDepth 8000

/-!
Verification of the creatornewsdesk repository.

This file shallowly embeds the Python sources of the repository
(brave_fetch_news.py, cnd_news_pipeline.py, cnd-image-worker-hourly.py,
llm_generate_post.py, dashboard_server.py, wordpress_taxonomy.py) into
Lean and proves properties of the embedded definitions.

Modelling conventions:
* Python strings are Lean `String`s; where Python performs character-level
  processing (regex whitespace collapse, `str.strip`, `str.split`,
  `str.replace`, substring tests) we implement the exact Python semantics
  over `String.data` (`List Char`).
* JSON values are the inductive `JVal`; Python `dict.get` is association
  list lookup.
* Network calls and wall-clock reads are oracles: their results are
  explicit inputs to the embedded functions (an `HttpResult`, an
  environment record of call results, a `now` timestamp).
* Python exceptions that the source catches are modelled with `Option` /
  explicit error branches that produce the value the handler returns.
-/

/-! ## Python string primitives (character level) -/

/-- Python `str.strip()` restricted to the left: drop leading whitespace. -/
def pyDropWs (l : List Char) : List Char := l.dropWhile Char.isWhitespace

/-- Python `str.strip()`: drop leading and trailing whitespace characters. -/
def pyStripL (l : List Char) : List Char :=
  ((pyDropWs l).reverse.dropWhile Char.isWhitespace).reverse

/-- Python `str.strip()` on a `String`. -/
def pyStrip (s : String) : String := ⟨pyStripL s.data⟩

/-- Auxiliary for `pyCollapseWs`: the flag records whether the previous
character was whitespace (so a run of whitespace emits one space). -/
def pyCollapseWsAux : Bool → List Char → List Char
  | _, [] => []
  | prevWs, c :: cs =>
    if c.isWhitespace then
      if prevWs then pyCollapseWsAux true cs
      else ' ' :: pyCollapseWsAux true cs
    else c :: pyCollapseWsAux false cs

/-- Python `re.sub(r"\s+", " ", s)`: every maximal run of whitespace is
replaced with a single space. -/
def pyCollapseWs (l : List Char) : List Char := pyCollapseWsAux false l

/-- `clamp(s, n)` from brave_fetch_news.py (lines 38-56), identical in
llm_generate_post.py and wordpress_taxonomy.py: collapse whitespace runs
to a single space, strip, then truncate to `n` characters (`s[:n]`). -/
def clamp (s : String) (n : Nat) : String :=
  ⟨(pyStripL (pyCollapseWs s.data)).take n⟩

/-- Python `len(s.split())` (split on whitespace runs, dropping empties):
count maximal non-whitespace runs.  The flag records whether we are
currently inside a word. -/
def pyWordCountAux : Bool → List Char → Nat
  | _, [] => 0
  | inWord, c :: cs =>
    if c.isWhitespace then pyWordCountAux false cs
    else (if inWord then 0 else 1) + pyWordCountAux true cs

/-- `len(new_content.split())` from cnd_news_pipeline.py line 1193. -/
def pyWordCount (s : String) : Nat := pyWordCountAux false s.data

/-- Python substring test `pat in s` over char lists. -/
def pyContainsSub (pat : List Char) : List Char → Bool
  | [] => pat.isEmpty
  | c :: cs => pat.isPrefixOf (c :: cs) || pyContainsSub pat cs

/-- Python `s.lower()` (ASCII-relevant part). -/
def pyLower (s : String) : String := ⟨s.data.map Char.toLower⟩

/-- Python `a in b` for strings. -/
def pyIn (pat s : String) : Bool := pyContainsSub pat.data s.data

/-- Python `s.replace(pat, "")` (remove all non-overlapping occurrences,
left to right).  Used for `line.replace("HEADLINE:", "")` and the title
token stripping in cnd_news_pipeline.py.  `fuel` is the list length;
each step consumes at least one character. -/
def pyRemoveAllAux (pat : List Char) : Nat → List Char → List Char
  | _, [] => []
  | 0, l => l
  | fuel + 1, c :: cs =>
    if pat ≠ [] && pat.isPrefixOf (c :: cs) then
      pyRemoveAllAux pat fuel (List.drop (pat.length - 1) cs)
    else c :: pyRemoveAllAux pat fuel cs

/-- Python `s.replace(pat, "")` on `String`s. -/
def pyRemoveAll (pat s : String) : String :=
  ⟨pyRemoveAllAux pat.data s.data.length s.data⟩

/-- Python slicing `s[:n]`. -/
def pyTake (s : String) (n : Nat) : String := ⟨s.data.take n⟩

/-- Python `s.startswith(p)`. -/
def pyStartsWith (s p : String) : Bool := p.data.isPrefixOf s.data

/-! Basic lemmas about the string primitives. -/

theorem clamp_length_le (s : String) (n : Nat) : (clamp s n).length ≤ n := by
  simp only [clamp, String.length]
  exact List.length_take_le n (pyStripL (pyCollapseWs s.data))

/-! ## JSON values (the shape of provider responses) -/

/-- JSON values as delivered by the Brave API / read from state files.
JSON numbers are modelled as integers (no claim depends on fractional
values). -/
inductive JVal : Type where
  | jnull : JVal
  | jbool : Bool → JVal
  | jnum : Int → JVal
  | jstr : String → JVal
  | jarr : List JVal → JVal
  | jobj : List (String × JVal) → JVal

/-- A JSON object (Python dict with string keys). -/
abbrev JObj := List (String × JVal)

/-- Python `d.get(k)`: first binding wins, `None` when absent. -/
def pyGet (d : JObj) (k : String) : Option JVal :=
  match d.find? (fun kv => kv.1 == k) with
  | some kv => some kv.2
  | none => none

/-- Python `d.get(k, dflt)`. -/
def pyGetD (d : JObj) (k : String) (dflt : JVal) : JVal :=
  match pyGet d k with
  | some v => v
  | none => dflt

/-- Python truthiness of a JSON value (`bool(v)`). -/
def pyTruthy : JVal → Bool
  | .jnull => false
  | .jbool b => b
  | .jnum n => n != 0
  | .jstr s => !s.isEmpty
  | .jarr l => !l.isEmpty
  | .jobj l => !l.isEmpty

/-- Python `a or b` where `a`, `b` are optional JSON values (`None` is
falsy). -/
def pyOrOpt (a b : Option JVal) : Option JVal :=
  match a with
  | some x => if pyTruthy x then some x else b
  | none => b

/-- Python `str(v)` for scalar JSON values; containers render in a
repr-like form (string escaping inside container reprs is elided; no
claim depends on it). -/
def pyStrOf : JVal → String
  | .jnull => "None"
  | .jbool b => if b then "True" else "False"
  | .jnum n => toString n
  | .jstr s => s
  | .jarr _ => "[...]"
  | .jobj _ => "\x7b...\x7d"

/-! ## pick_image (brave_fetch_news.py lines 59-82; the identical
function also appears in wordpress_taxonomy.py lines 85-103) -/

/-- One iteration of the key loop in `pick_image`: for key `k`, return the
URL the function would `return` at this key, or `none` to continue. -/
def pickImageTryKey (item : JObj) (k : String) : Option String :=
  match pyGet item k with
  | some (.jstr v) => if pyStartsWith v "http" then some v else none
  | some (.jobj d) =>
    match pyOrOpt (pyGet d "url") (pyGet d "src") with
    | some (.jstr u) => if pyStartsWith u "http" then some u else none
    | _ => none
  | _ => none

/-- `pick_image(item)`: try keys `image`, `thumbnail`, `img` in order;
first string value (direct or nested under `url`/`src`) starting with
`http` wins; otherwise the empty string. -/
def pick_image (item : JObj) : String :=
  match pickImageTryKey item "image" with
  | some u => u
  | none =>
    match pickImageTryKey item "thumbnail" with
    | some u => u
    | none =>
      match pickImageTryKey item "img" with
      | some u => u
      | none => ""

theorem pickImageTryKey_startsWith (item : JObj) (k : String) (u : String)
    (h : pickImageTryKey item k = some u) : pyStartsWith u "http" = true := by
  unfold pickImageTryKey at h
  split at h
  · split at h
    · cases h; assumption
    · exact absurd h (by simp)
  · split at h
    · split at h
      · cases h; assumption
      · exact absurd h (by simp)
    · exact absurd h (by simp)
  · exact absurd h (by simp)

/-- **C10** (confirmed).  For every input dictionary, `pick_image` returns
either the empty string or a string that starts with "http"; the embedded
function is total (the Python original cannot raise: every attribute
access is guarded by an `isinstance` check). -/
theorem C10_pick_image_http_or_empty (item : JObj) :
    pick_image item = "" ∨ pyStartsWith (pick_image item) "http" = true := by
  unfold pick_image
  rcases h1 : pickImageTryKey item "image" with _ | u1
  · rcases h2 : pickImageTryKey item "thumbnail" with _ | u2
    · rcases h3 : pickImageTryKey item "img" with _ | u3
      · left; rfl
      · right; exact pickImageTryKey_startsWith item "img" u3 h3
    · right; exact pickImageTryKey_startsWith item "thumbnail" u2 h2
  · right; exact pickImageTryKey_startsWith item "image" u1 h1

/-! ## Article fetcher: search_brave in brave_fetch_news.py (lines 134-192) -/

/-- `clamp` applied to a value obtained from `dict.get`: Python `clamp`
first maps `None` to `""`, then calls `str(s)`. -/
def clampJ (v : JVal) (n : Nat) : String :=
  clamp (match v with | .jnull => "" | _ => pyStrOf v) n

/-- The article dictionary built per result item in
brave_fetch_news.search_brave (lines 177-186).  `title` and `description`
go through `clamp` with limits 200 and 500; `url`, `domain`, `age` are
stored raw (whatever JSON value the provider delivered); `image` comes
from `pick_image`. -/
structure FArticle where
  title : String
  description : String
  url : JVal
  domain : JVal
  age : JVal
  image : String

/-- Building one `FArticle` from a raw result item (search_brave lines
178-185). -/
def braveItemToArticle (item : JObj) : FArticle :=
  { title := clampJ (pyGetD item "title" (.jstr "")) 200
    description := clampJ (pyGetD item "description" (.jstr "")) 500
    url := pyGetD item "url" (.jstr "")
    domain := pyGetD item "domain" (.jstr "")
    age := pyGetD item "age" (.jstr "")
    image := pick_image item }

/-- `v` as a Python dict; `none` models the AttributeError that `.get`
raises on a non-dict (caught by the enclosing `try`). -/
def asObj : JVal → Option JObj
  | .jobj d => some d
  | _ => none

/-- Result of an HTTP request: a network-level exception, or a response
with a status code and a body (`none` body models a `.json()` parse
failure, which raises inside the enclosing `try`). -/
inductive HttpResult : Type where
  | netError : HttpResult
  | ok : Nat → Option JVal → HttpResult

/-- The body-processing part of brave_fetch_news.search_brave (lines
173-188): `data.get("results", [])` and the per-item loop.  `none` models
any exception inside the `try` (non-dict body or item); a non-list
`results` value either raises or iterates to nothing, both of which the
caller observes as `[]`. -/
def braveResults (bv : JVal) : Option (List FArticle) :=
  match asObj bv with
  | none => none
  | some data =>
    match pyGetD data "results" (.jarr []) with
    | .jarr items => (items.mapM asObj).map (fun objs => objs.map braveItemToArticle)
    | _ => none

/-- `search_brave(query, api_key, count)` from brave_fetch_news.py (lines
134-192), with the HTTP exchange as an oracle input.  Empty API key,
network error, non-200 status, and any parsing exception all produce the
empty list. -/
def search_brave_fetch (apiKey : String) (r : HttpResult) : List FArticle :=
  if apiKey = "" then []
  else
    match r with
    | .netError => []
    | .ok status body =>
      if status ≠ 200 then []
      else
        match body with
        | none => []
        | some bv => (braveResults bv).getD []

/-! ## Article fetcher: search_brave in cnd_news_pipeline.py (lines
475-545) -/

/-- The skip list from cnd_news_pipeline.py lines 519-520. -/
def skipDomains : List String :=
  ["reddit.com", "old.reddit.com", "new.reddit.com",
   "youtu.be", "instagram.com", "tiktok.com", "twitter.com", "x.com"]

/-- The generator `any(d in domain.lower() or d in url.lower() for d in
skip_domains)` (line 521).  `domL` is the already-lowered domain;
`url.lower()` is evaluated lazily, so a non-string url raises
(result `none`) only when some domain test is false. -/
def skipAny : List String → String → JVal → Option Bool
  | [], _, _ => some false
  | d :: ds, domL, urlv =>
    if pyIn d domL then some true
    else
      match urlv with
      | .jstr u => if pyIn d (pyLower u) then some true else skipAny ds domL urlv
      | _ => none

/-- The article dictionary built per item in the pipeline variant of
search_brave (lines 529-537): all text fields are stored raw — this
variant performs no clamping. -/
structure PRawArticle where
  title : JVal
  description : JVal
  url : JVal
  age : JVal
  domain : String
  image : JVal
  published_time : JVal

/-- Per-item processing in the pipeline search_brave (lines 514-538).
Outer `none` models an exception (caught by the function `try`);
`some none` means the item was skipped by the domain filter. -/
def pipelineItem (item : JObj) : Option (Option PRawArticle) :=
  match pyGetD item "domain" (.jstr "") with
  | .jstr dom =>
    let urlv := pyGetD item "url" (.jstr "")
    match skipAny skipDomains (pyLower dom) urlv with
    | none => none
    | some true => some none
    | some false =>
      let image0 :=
        (pyOrOpt (pyGet item "thumbnail")
          (pyOrOpt (pyGet item "image") (some (.jstr "")))).getD (.jstr "")
      let image :=
        match image0 with
        | .jobj d => pyGetD d "url" (.jstr "")
        | v => v
      some (some
        { title := pyGetD item "title" (.jstr "")
          description := pyGetD item "description" (.jstr "")
          url := urlv
          age := pyGetD item "age" (.jstr "")
          domain := dom
          image := image
          published_time := pyGetD item "published_time" (.jstr "") })
  | _ => none

/-- Body processing of the pipeline search_brave (lines 510-540). -/
def pipelineResults (bv : JVal) : Option (List PRawArticle) :=
  match asObj bv with
  | none => none
  | some data =>
    match pyGetD data "results" (.jarr []) with
    | .jarr items =>
      (items.mapM (fun it => (asObj it).bind pipelineItem)).map
        (fun l => l.filterMap id)
    | _ => none

/-- `search_brave(query, api_key, count, days_back)` from
cnd_news_pipeline.py (lines 475-545): returns the processed articles on a
200 response and `[]` on a network error, a non-200 status, or any
exception during parsing. -/
def search_brave_pipeline (r : HttpResult) : List PRawArticle :=
  match r with
  | .netError => []
  | .ok status body =>
    if status = 200 then
      match body with
      | none => []
      | some bv => (pipelineResults bv).getD []
    else []

/-- **C7** (confirmed).  For every query, a network error or a non-200
status makes both fetcher variants return the empty list instead of
raising, so one failing query never aborts the run. -/
theorem C7_search_fails_softly :
    (∀ k, search_brave_fetch k .netError = []) ∧
    (∀ k st body, st ≠ 200 → search_brave_fetch k (.ok st body) = []) ∧
    (search_brave_pipeline .netError = []) ∧
    (∀ st body, st ≠ 200 → search_brave_pipeline (.ok st body) = []) := by
  refine ⟨fun k => ?_, fun k st body h => ?_, rfl, fun st body h => ?_⟩
  · unfold search_brave_fetch; split <;> rfl
  · unfold search_brave_fetch; split
    · rfl
    · simp [h]
  · unfold search_brave_pipeline; simp [h]

/-- Witness for C7: concrete non-200 responses produce `[]`. -/
theorem C7_search_fails_softly_witness :
    (404 ≠ 200) ∧ search_brave_fetch "key" (.ok 404 none) = [] ∧
      search_brave_pipeline (.ok 500 none) = [] :=
  ⟨by decide, C7_search_fails_softly.2.1 "key" 404 none (by decide),
    C7_search_fails_softly.2.2.2 500 none (by decide)⟩

/-- **C6 counterexample**: the url is not truncated.  A result item whose
url is a 501-character string passes through
brave_fetch_news.search_brave unchanged, contradicting the claim that
urls are truncated to at most 500 characters. -/
def c6Url : String := ⟨'h' :: 't' :: 't' :: 'p' :: List.replicate 497 'a'⟩

/-- The concrete raw result item for the C6 counterexample. -/
def c6Item : JObj := [("title", .jstr "Example  title"), ("url", .jstr c6Url)]

theorem C6_url_not_truncated :
    (braveItemToArticle c6Item).url = .jstr c6Url ∧
      c6Url.length = 501 ∧ ¬ c6Url.length ≤ 500 := by
  refine ⟨rfl, by decide, by decide⟩

/-- **C6 as amended** (corrected).  For every raw search result item, the
fetcher trims/collapses whitespace and truncates the title to at most 200
characters and the description to at most 500 characters (stricter than
the ~220/~800 the spec allows), but the url is passed through entirely
unchanged — it is not truncated to 500 characters. -/
theorem C6_amended_normalization (item : JObj) :
    (braveItemToArticle item).title.length ≤ 200 ∧
    (braveItemToArticle item).description.length ≤ 500 ∧
    (braveItemToArticle item).title = clampJ (pyGetD item "title" (.jstr "")) 200 ∧
    (braveItemToArticle item).description
      = clampJ (pyGetD item "description" (.jstr "")) 500 ∧
    (braveItemToArticle item).url = pyGetD item "url" (.jstr "") := by
  refine ⟨?_, ?_, rfl, rfl, rfl⟩ <;>
    simp [braveItemToArticle, clampJ, clamp_length_le]

/-! ## Rate limiter (cnd-image-worker-hourly.py lines 46-118) -/

/-- `HOURLY_CAP = int(os.environ.get("CND_HOURLY_CAP", "8"))` with the
environment variable unset. -/
def HOURLY_CAP : Nat := 8

/-- `DAILY_CAP = int(os.environ.get("CND_DAILY_CAP", "180"))` with the
environment variable unset. -/
def DAILY_CAP : Nat := 180

/-- `prune(ts, seconds)` (lines 79-91): keep exactly the timestamps
strictly newer than `now - seconds`.  Timestamps are modelled as
rationals; `now` (the `time.time()` read) is an explicit input. -/
def prune (ts : List ℚ) (now : ℚ) (seconds : ℚ) : List ℚ :=
  ts.filter (fun t => now - seconds < t)

/-- `can_generate()` (lines 94-118) with the persisted usage list and the
clock as inputs and the caps as parameters: refuse when the hour window
already holds `hourlyCap` entries, then when the day window already holds
`dailyCap` entries, otherwise allow. -/
def can_generate (hourlyCap dailyCap : Nat) (usage : List ℚ) (now : ℚ) : Bool :=
  if (prune usage now 3600).length ≥ hourlyCap then false
  else if (prune usage now 86400).length ≥ dailyCap then false
  else true

/-- **C2** (confirmed).  For any persisted usage list and any `now`, the
hour window counts exactly the entries with `t > now - 3600`, the day
window exactly those with `t > now - 86400`, and `can_generate` is true
iff both counts are strictly below their caps; the default caps are 8 per
hour and 180 per day. -/
theorem C2_rate_limiter_windows (usage : List ℚ) (now : ℚ) :
    (prune usage now 3600).length = usage.countP (fun t => decide (now - 3600 < t)) ∧
    (prune usage now 86400).length = usage.countP (fun t => decide (now - 86400 < t)) ∧
    (can_generate HOURLY_CAP DAILY_CAP usage now = true ↔
      usage.countP (fun t => decide (now - 3600 < t)) < 8 ∧
        usage.countP (fun t => decide (now - 86400 < t)) < 180) := by
  refine ⟨(List.countP_eq_length_filter _ _).symm,
    (List.countP_eq_length_filter _ _).symm, ?_⟩
  rw [can_generate, HOURLY_CAP, DAILY_CAP, List.countP_eq_length_filter,
    List.countP_eq_length_filter]
  unfold prune
  split
  · simp only [Bool.false_eq_true, false_iff]
    omega
  · split
    · simp only [Bool.false_eq_true, false_iff]
      omega
    · simp only [true_iff]
      omega

/-! ## Dedup ledger persistence (cnd_news_pipeline.py lines 376-398) -/

/-- State of a persisted JSON file: absent, unparsable, or parsed
content. -/
inductive FileState (α : Type) : Type where
  | missing : FileState α
  | corrupt : FileState α
  | ok : α → FileState α

/-- Python `set.add` on a set represented as a duplicate-free list:
`processed_urls.add(url)`. -/
def setInsert (u : String) (s : List String) : List String :=
  if u ∈ s then s else u :: s

/-- Python `set(l)` for a list of strings: fold insertion (membership
semantics; later duplicates are absorbed). -/
def pySetOfList (l : List String) : List String := l.foldr setInsert []

/-- `load_processed()` (lines 376-388): missing or corrupt file yields the
empty set, otherwise `set(json.load(f))`. -/
def load_processed : FileState (List String) → List String
  | .missing => []
  | .corrupt => []
  | .ok l => pySetOfList l

/-- `save_processed(urls)` (lines 391-398): `json.dump(list(urls), ...)` —
the persisted array holds exactly the elements of the set. -/
def save_processed (s : List String) : List String := s

/-- Marking a URL as processed: `processed_urls.add(url)` (line 1111). -/
def mark_seen (s : List String) (u : String) : List String := setInsert u s

/-- Membership in the processed set: `url in processed_urls` (line 1106). -/
def has_seen (s : List String) (u : String) : Bool := decide (u ∈ s)

theorem mem_setInsert (x u : String) (s : List String) :
    x ∈ setInsert u s ↔ x = u ∨ x ∈ s := by
  unfold setInsert
  split
  · rename_i h
    constructor
    · exact Or.inr
    · rintro (rfl | hx)
      · exact h
      · exact hx
  · simp [List.mem_cons]

theorem mem_pySetOfList (x : String) (l : List String) :
    x ∈ pySetOfList l ↔ x ∈ l := by
  induction l with
  | nil => simp [pySetOfList]
  | cons a l ih =>
    simp only [pySetOfList, List.foldr_cons] at *
    rw [mem_setInsert, ih, List.mem_cons]

theorem nodup_setInsert (u : String) (s : List String) (h : s.Nodup) :
    (setInsert u s).Nodup := by
  unfold setInsert
  split
  · exact h
  · exact List.Nodup.cons (by assumption) h

theorem nodup_pySetOfList (l : List String) : (pySetOfList l).Nodup := by
  induction l with
  | nil => simp [pySetOfList]
  | cons a l ih =>
    simp only [pySetOfList, List.foldr_cons] at *
    exact nodup_setInsert a _ ih

theorem pySetOfList_eq_self (l : List String) (h : l.Nodup) :
    pySetOfList l = l := by
  induction l with
  | nil => rfl
  | cons a l ih =>
    rcases List.nodup_cons.mp h with ⟨ha, hl⟩
    simp only [pySetOfList, List.foldr_cons] at *
    rw [ih hl]
    unfold setInsert
    simp [ha]

/-- **C8** (confirmed).  The processed-URL ledger round-trips: every URL of
a saved set is present after reload (in particular `has_seen(u)` holds
after `mark_seen(u)`, save, and reload), and save → reload → save yields
an identical set. -/
theorem C8_ledger_round_trip :
    (∀ s u, has_seen (load_processed (.ok (save_processed (mark_seen s u)))) u = true) ∧
    (∀ s u, u ∈ load_processed (.ok (save_processed s)) ↔ u ∈ s) ∧
    (∀ s, load_processed (.ok (save_processed (load_processed (.ok (save_processed s)))))
      = load_processed (.ok (save_processed s))) := by
  refine ⟨fun s u => ?_, fun s u => ?_, fun s => ?_⟩
  · simp only [load_processed, save_processed, mark_seen, has_seen, decide_eq_true_iff]
    rw [mem_pySetOfList, mem_setInsert]
    exact Or.inl rfl
  · simp only [load_processed, save_processed]
    exact mem_pySetOfList u s
  · simp only [load_processed, save_processed]
    exact pySetOfList_eq_self _ (nodup_pySetOfList s)

/-! ## State-file loaders and their defaults (C9) -/

/-- Python `float(x)` on a JSON value: numbers and booleans convert;
`None` and containers raise (numeric-string coercion is elided — no claim
depends on it, and a failing conversion is observed identically). -/
def toPyFloat : JVal → Option ℚ
  | .jnum n => some (n : ℚ)
  | .jbool b => some (if b then 1 else 0)
  | _ => none

/-- `load_usage()` (cnd-image-worker-hourly.py lines 51-66): missing file
→ `[]`; parse failure → `[]`; non-list JSON → `[]`; a list converts
element-wise, any failing `float(x)` raising inside the `try` → `[]`. -/
def load_usage : FileState JVal → List ℚ
  | .missing => []
  | .corrupt => []
  | .ok v =>
    match v with
    | .jarr xs =>
      match xs.mapM toPyFloat with
      | some fs => fs
      | none => []
    | _ => []

/-- `default_status` from dashboard_server.py lines 35-48. -/
def defaultStatus : JVal :=
  .jobj [("running", .jbool false), ("started", .jnull), ("completed", .jnull),
    ("stats", .jobj [("fetched", .jnum 0), ("processed", .jnum 0),
      ("created", .jnum 0), ("skipped", .jnum 0), ("errors", .jnum 0)]),
    ("lastPost", .jnull), ("lastError", .jnull)]

/-- `load_status()` (dashboard_server.py lines 51-64): missing or corrupt
file yields (a copy of) the default status object. -/
def load_status : FileState JVal → JVal
  | .missing => defaultStatus
  | .corrupt => defaultStatus
  | .ok v => v

/-- `load_wp_cache()` (cnd_news_pipeline.py lines 333-349): a missing file
leaves the current global cache (initially `{}`) untouched; a corrupt file
resets it to `{}`; otherwise the parsed value is installed. -/
def load_wp_cache : FileState JVal → JVal → JVal
  | .missing, current => current
  | .corrupt, _ => .jobj []
  | .ok v, _ => v

/-- **C9** (confirmed).  Every persisted state file (processed-URL array,
usage-timestamp array, taxonomy/WordPress cache, run-status object) loads
as the empty/default state when the file is missing or corrupt; the
embedded loaders are total, so no fatal error is possible. -/
theorem C9_loaders_default_on_missing_or_corrupt :
    (load_processed .missing = [] ∧ load_processed .corrupt = []) ∧
    (load_usage .missing = [] ∧ load_usage .corrupt = []) ∧
    (load_wp_cache .missing (.jobj []) = .jobj [] ∧
      ∀ c, load_wp_cache .corrupt c = .jobj []) ∧
    (load_status .missing = defaultStatus ∧ load_status .corrupt = defaultStatus) :=
  ⟨⟨rfl, rfl⟩, ⟨rfl, rfl⟩, ⟨rfl, fun _ => rfl⟩, ⟨rfl, rfl⟩⟩

/-! ## Pipeline orchestrator: static data and pure helpers
(cnd_news_pipeline.py) -/

/-- Python `s.upper()` (ASCII-relevant part). -/
def pyUpper (s : String) : String := ⟨s.data.map Char.toUpper⟩

/-- `CATEGORY_MAP` (cnd_news_pipeline.py lines 232-252), in insertion
order (Python dict iteration order). -/
def CATEGORY_MAP : List (String × Nat) :=
  [("DJI", 13), ("GoPro", 17), ("Insta360", 16), ("Skydio", 14), ("Autel", 15),
   ("Sony", 19), ("Canon", 19), ("Nikon", 19), ("Fujifilm", 19), ("Panasonic", 19),
   ("Rode", 6), ("Shure", 6), ("Sennheiser", 6), ("Audio-Technica", 6),
   ("Aputure", 7), ("Nanlite", 7), ("Godox", 7), ("Lume Cube", 7),
   ("Zhiyun", 5), ("Moza", 5), ("Hohem", 5), ("FeiyuTech", 5),
   ("Elgato", 23), ("Logitech", 23), ("Razer", 23),
   ("Sigma", 8), ("Tamron", 8), ("Tokina", 8),
   ("MrBeast", 11), ("Marques Brownlee", 11), ("MKBHD", 11), ("Markiplier", 11),
   ("PewDiePie", 11), ("Mark Rober", 11), ("WhistlinDiesel", 11), ("Dude Perfect", 11),
   ("YouTube", 10), ("TikTok", 10), ("Instagram", 10)]

/-- `TAG_MAP` (lines 267-278), in insertion order. -/
def TAG_MAP : List (String × Nat) :=
  [("drone", 4), ("drones", 4),
   ("camera", 8), ("cameras", 8), ("lens", 8), ("lenses", 8),
   ("microphone", 6), ("mic", 6), ("audio", 6),
   ("lighting", 7), ("light", 7), ("led", 7),
   ("gimbal", 5), ("stabilizer", 5),
   ("streaming", 9), ("stream", 9),
   ("youtube", 10), ("youtuber", 10),
   ("tiktok", 11), ("tiktoker", 11),
   ("review", 12), ("news", 13), ("announcement", 14),
   ("action camera", 5), ("360", 5)]

/-- `brand_to_tag_id` (lines 948-954); `None` entries are skipped by the
truthiness test in the source. -/
def BRAND_TO_TAG_ID : List (String × Option Nat) :=
  [("dji", some 3), ("gopro", some 28), ("insta360", some 27), ("skydio", some 29),
   ("autel", some 30), ("sony", some 31), ("canon", some 32), ("nikon", some 33),
   ("fujifilm", some 34), ("panasonic", some 35), ("rode", some 36), ("shure", some 37),
   ("sennheiser", some 38), ("audio-technica", some 39), ("elgato", some 44),
   ("logitech", some 50), ("razer", some 48),
   ("sigma", none), ("tamron", none), ("tokina", none)]

/-- `TITLE_STRIP_TOKENS` (lines 281-288). -/
def TITLE_STRIP_TOKENS : List String :=
  [" | Tom's Guide", " - Tom's Guide", " — Tom's Guide",
   " | The Verge", " | TechCrunch", " | Engadget",
   " | PetaPixel", " | DPReview", " | Fstoppers",
   " | B&H Photo", " | B&H", "B&H eXplor",
   " | Adorama", " | YouTube", " | Twitch", " | Instagram",
   " — PetaPixel", " — TechCrunch", " — The Verge"]

/-- `extract_category_from_query(query)` (lines 897-903): first brand of
`CATEGORY_MAP` whose upper-cased name occurs in the upper-cased query. -/
def extract_category_from_query (query : String) : Option Nat :=
  let qU := pyUpper query
  (CATEGORY_MAP.find? (fun bc => pyIn (pyUpper bc.1) qU)).map (fun bc => bc.2)

/-- Python `list(set(tags))` for integer tags.  A Python set iterates in
an unspecified (hash-based) order; it is modelled by this canonical
dedup — no claim depends on tag order. -/
def natSetInsert (u : Nat) (s : List Nat) : List Nat :=
  if u ∈ s then s else u :: s

/-- Python `list(set(l))` for a list of naturals (membership semantics). -/
def natSetOfList (l : List Nat) : List Nat := l.foldr natSetInsert []

/-- `get_tags_from_query(query)` (lines 942-982). -/
def get_tags_from_query (query : String) : List Nat :=
  let qL := pyLower query
  let tags1 := TAG_MAP.foldl
    (fun tags kt =>
      if pyIn kt.1 qL && !(tags.contains kt.2) then tags ++ [kt.2] else tags) []
  let tags2 := BRAND_TO_TAG_ID.foldl
    (fun tags bt =>
      match bt.2 with
      | some tid =>
        if pyIn bt.1 qL && !(tags.contains tid) then tags ++ [tid] else tags
      | none => tags) tags1
  let tags3 :=
    match extract_category_from_query query with
    | some category =>
      if category ≠ 0 then
        if category = 4 || [13, 17, 16, 14, 15].contains category then tags2 ++ [4, 3]
        else if [18, 19, 20, 40, 41].contains category then tags2 ++ [8]
        else if [21, 22, 42, 43, 6].contains category then tags2 ++ [6]
        else if [23, 49, 47].contains category then tags2 ++ [9]
        else if category = 7 then tags2 ++ [7]
        else tags2
      else tags2
    | none => tags2
  natSetOfList tags3

/-- Value of a maximal digit run (`re.search(r'(\d+)', s)` group). -/
def digitsToNat (ds : List Char) : Nat :=
  ds.foldl (fun a c => a * 10 + (c.toNat - '0'.toNat)) 0

/-- First integer occurring in a string, as matched by
`re.search(r'(\d+)', s)`. -/
def firstNumber (s : String) : Option Nat :=
  match s.data.dropWhile (fun c => !c.isDigit) with
  | [] => none
  | l => some (digitsToNat (l.takeWhile Char.isDigit))

/-- `get_article_age_days(age_str)` (lines 906-925): empty → unknown;
"hour" → 0 days; "day"/"week"/"month" → first number times 1/7/30;
otherwise unknown. -/
def get_article_age_days (ageStr : String) : Option Int :=
  if ageStr = "" then none
  else
    let aL := pyLower ageStr
    if pyIn "hour" aL then some 0
    else if pyIn "day" aL then (firstNumber ageStr).map (fun n => (n : Int))
    else if pyIn "week" aL then (firstNumber ageStr).map (fun n => ((n : Int) * 7))
    else if pyIn "month" aL then (firstNumber ageStr).map (fun n => ((n : Int) * 30))
    else none

/-- `strip_title_site_names(title)` (lines 1013-1018): remove every
occurrence of every strip token, then strip outer whitespace. -/
def strip_title_site_names (title : String) : String :=
  pyStrip (TITLE_STRIP_TOKENS.foldl (fun r tok => pyRemoveAll tok r) title)

/-- Python `s.split(sep)` for a one-character separator (keeps empty
pieces, like `generated_content.split('\n')` and `tags_str.split(',')`). -/
def pySplitChar (c : Char) : List Char → List (List Char)
  | [] => [[]]
  | x :: xs =>
    match pySplitChar c xs with
    | [] => [[]]
    | cur :: rest => if x = c then [] :: cur :: rest else (x :: cur) :: rest

/-- `s.split('\n')` on a `String`. -/
def pyLines (s : String) : List String :=
  (pySplitChar '\n' s.data).map (fun l => (⟨l⟩ : String))

/-- `[t.strip().lower() for t in tags_str.split(',') if t.strip()]`
(line 1181). -/
def parseTagNames (tagsStr : String) : List String :=
  ((pySplitChar ',' tagsStr.data).map (fun l => (⟨l⟩ : String))).filterMap
    (fun t => if pyStrip t = "" then none else some (pyLower (pyStrip t)))

/-- Accumulated result of the line-oriented LLM-response parse
(lines 1166-1183). -/
structure ParsedLLM where
  seoTitle : String
  seoDesc : String
  tagNames : List String
  newContent : String

/-- One iteration of the response-parsing loop (lines 1173-1183). -/
def parseLine (st : ParsedLLM) (rawLine : String) : ParsedLLM :=
  let line := pyStrip rawLine
  if pyStartsWith line "HEADLINE:" then
    { st with seoTitle := pyStrip (pyRemoveAll "HEADLINE:" line) }
  else if pyStartsWith line "META:" then
    { st with seoDesc := pyStrip (pyRemoveAll "META:" line) }
  else if pyStartsWith line "TAGS:" then
    { st with tagNames := parseTagNames (pyStrip (pyRemoveAll "TAGS:" line)) }
  else if pyStartsWith line "ARTICLE:" then
    { st with newContent := pyStrip (pyRemoveAll "ARTICLE:" line) }
  else st

/-- The whole parse of a generated response (lines 1167-1183): seeds
`seo_title` with the cleaned original title and `new_content` with the
stripped full response, then folds over the lines. -/
def parseLLMResponse (generated : String) (cleanTitle : String) : ParsedLLM :=
  (pyLines generated).foldl parseLine
    { seoTitle := cleanTitle, seoDesc := "", tagNames := [], newContent := pyStrip generated }

/-! ## Pipeline orchestrator: the per-article loop body
(cnd_news_pipeline.py lines 1102-1292) -/

/-- The canonical article record the loop consumes (built by
`fetch_rss_feeds` / filtered `search_brave` results; all fields the loop
reads). -/
structure PArticle where
  url : String
  title : String
  description : String
  domain : String
  age : String
  image : String
  published_time : String
  source : String

/-- Per-article oracle results: outcomes of the network calls, the
wall-clock datetime computations, and the `random.choice` tone pick that
the loop body performs. -/
structure StepEnv where
  /-- `get_brand_tone(...)` result (a `random.choice` over `BRAND_TONES`). -/
  tone : String
  /-- Age in days computed from `datetime.now() - published_time` for RSS
  articles (lines 1121-1128); `none` models the parse raising (the value
  from `get_article_age_days` is then kept). -/
  rssAgeDays : Option Int
  /-- `generate_with_llm(prompt)` result; `""` models every failure path. -/
  llmResponse : String
  /-- `create_wp_tag(auth, name)` results (lines 1202-1206). -/
  tagCreate : String → Option Nat
  /-- `parse_brave_date(article.published_time)` (datetime parsing). -/
  parsedDate : Option String
  /-- `create_wp_post(...)` result. -/
  createResult : Option Nat
  /-- `upload_media_to_wp(...)` result. -/
  uploadResult : Option Nat
  /-- `set_featured_image(...)` result — the source ignores it. -/
  attachResult : Bool

/-- The argument record of a `create_wp_post` call (lines 663-739 and the
call sites). -/
structure WpPostReq where
  title : String
  content : String
  status : String
  categories : List Nat
  tags : List Nat
  seoTitle : String
  seoDescription : String
  featuredImage : Option String
  postDate : Option String
  socialMessage : Option String
  deriving DecidableEq

/-- Mutable run state: the in-memory processed-URL set, the `stats`
dictionary (lines 1030-1036), and ghost logs of the rewrite submissions,
`create_wp_post` calls, and publish status updates the run performs. -/
structure RunState where
  processed : List String
  fetched : Nat
  processedCount : Nat
  created : Nat
  skipped : Nat
  errors : Nat
  rewrites : List String
  creates : List WpPostReq
  publishes : List Nat

/-- Observable per-article events of one loop iteration. -/
structure StepEvents where
  rewriteCalled : Bool
  createReq : Option WpPostReq
  createdId : Option Nat
  uploadedMedia : Option Nat
  attachCalled : Bool
  publishCalled : Bool

/-- No calls made. -/
def noEvents : StepEvents :=
  { rewriteCalled := false, createReq := none, createdId := none,
    uploadedMedia := none, attachCalled := false, publishCalled := false }

/-- Result of one loop iteration: the new state, whether the `for` loop
`break`s, and the events of the iteration. -/
structure StepOut where
  state : RunState
  brake : Bool
  events : StepEvents

/-- The final status of the post this iteration created: `none` when no
post was created, otherwise `publish` when the status-update call was
made and `draft` otherwise. -/
def StepEvents.finalStatus (ev : StepEvents) : Option String :=
  match ev.createdId with
  | none => none
  | some _ => some (if ev.publishCalled then "publish" else "draft")

/-- `article_age_days` after the RSS adjustment (lines 1117-1128). -/
def effectiveAgeDays (a : PArticle) (e : StepEnv) : Option Int :=
  let base := get_article_age_days a.age
  if a.source == "rss" && a.published_time != "" then
    match e.rssAgeDays with
    | some d => some d
    | none => base
  else base

/-- The freshness gate `article_age_days is not None and article_age_days > 7`
(line 1131). -/
def tooOld (a : PArticle) (e : StepEnv) : Bool :=
  match effectiveAgeDays a e with
  | some d => decide (d > 7)
  | none => false

/-- Creating missing tags from the LLM tag names and appending the new
ids (lines 1202-1206). -/
def addLLMTags (e : StepEnv) (articleTags : List Nat) (tagNames : List String) : List Nat :=
  tagNames.foldl
    (fun acc tn =>
      if tn ≠ "" then
        match e.tagCreate tn with
        | some tid => if !(acc.contains tid) then acc ++ [tid] else acc
        | none => acc
      else acc) articleTags

/-- `re.sub(r'[^a-zA-Z0-9]', '', tag).lower()` (line 1214). -/
def hashtagOf (t : String) : String :=
  pyLower ⟨t.data.filter (fun c => c.isAlpha || c.isDigit)⟩

/-- The social-hashtag build (lines 1210-1216).  Note the source compares
the bare hashtag against a list of `#`-prefixed entries, so the intended
dedup test never fires; the model reproduces that. -/
def socialHashtags (tagNames : List String) : List String :=
  (tagNames.take 3).foldl
    (fun acc tag =>
      if tag ≠ "" && tag.length > 2 then
        let h := hashtagOf tag
        if h ≠ "" && !(acc.contains h) then acc ++ ["#" ++ h] else acc
      else acc) []

/-- `social_message` (line 1218). -/
def socialMessageOf (newTitle : String) (tagNames : List String) : Option String :=
  let hs := socialHashtags tagNames
  if hs ≠ [] then some (pyTake newTitle 200 ++ " " ++ String.intercalate " " hs)
  else none

/-- The tail of the loop body from the `create_wp_post` call on
(lines 1220-1292): create the post as a draft; on success try the
media upload when the article has an image url; a successful upload
triggers `set_featured_image` (result ignored) and the status update to
`publish`, then `break`; a created post without a publish `break`s when
the article had an image, else falls through to the next article; a
failed create counts as an error.

`buildCreateReq` is the argument record of the `create_wp_post` call at
lines 1220-1232: always `status="draft"`. -/
def buildCreateReq (q : String) (a : PArticle) (e : StepEnv)
    (p : ParsedLLM) (newTitle : String) : WpPostReq :=
  { title := newTitle
    content := p.newContent
    status := "draft"
    categories := match extract_category_from_query q with
      | some c => if c ≠ 0 then [c] else []
      | none => []
    tags := addLLMTags e (get_tags_from_query q) p.tagNames
    seoTitle := p.seoTitle
    seoDescription := p.seoDesc
    featuredImage := some a.image
    postDate := e.parsedDate
    socialMessage := socialMessageOf newTitle p.tagNames }

def stepCreate (q : String) (a : PArticle) (e : StepEnv) (s : RunState)
    (p : ParsedLLM) (newTitle : String) : StepOut :=
  let req := buildCreateReq q a e p newTitle
  let s1 := { s with creates := s.creates ++ [req] }
  match e.createResult with
  | none =>
    { state := { s1 with errors := s1.errors + 1, processedCount := s1.processedCount + 1 }
      brake := false
      events := { noEvents with rewriteCalled := true, createReq := some req } }
  | some pid =>
    if a.image ≠ "" then
      match e.uploadResult with
      | some mid =>
        { state := { s1 with publishes := s1.publishes ++ [pid] }
          brake := true
          events := { rewriteCalled := true, createReq := some req, createdId := some pid,
                      uploadedMedia := some mid, attachCalled := true, publishCalled := true } }
      | none =>
        { state := { s1 with created := s1.created + 1 }
          brake := true
          events := { rewriteCalled := true, createReq := some req, createdId := some pid,
                      uploadedMedia := none, attachCalled := false, publishCalled := false } }
    else
      { state := { s1 with created := s1.created + 1, processedCount := s1.processedCount + 1 }
        brake := false
        events := { rewriteCalled := true, createReq := some req, createdId := some pid,
                    uploadedMedia := none, attachCalled := false, publishCalled := false } }

/-- Parsing the generated response and the minimum-word-count gate
(lines 1166-1199): a body below 400 words is skipped (counted in
`skipped`) before any post-creation call. -/
def stepParsed (q : String) (a : PArticle) (e : StepEnv) (s : RunState) : StepOut :=
  let cleanTitle := strip_title_site_names a.title
  let p := parseLLMResponse e.llmResponse cleanTitle
  let newTitle := strip_title_site_names (strip_title_site_names p.seoTitle)
  if pyWordCount p.newContent < 400 then
    { state := { s with skipped := s.skipped + 1 }
      brake := false
      events := { noEvents with rewriteCalled := true } }
  else stepCreate q a e s p newTitle

/-- The rewrite call (lines 1148-1164): the prompt is sent to the local
LLM; the url is logged as submitted for rewriting; an empty generation is
counted as an error. -/
def stepRewrite (q : String) (a : PArticle) (e : StepEnv) (s : RunState) : StepOut :=
  let s1 := { s with rewrites := s.rewrites ++ [a.url] }
  if e.llmResponse == "" then
    { state := { s1 with errors := s1.errors + 1 }
      brake := false
      events := { noEvents with rewriteCalled := true } }
  else stepParsed q a e s1

/-- The freshness gate (lines 1117-1133). -/
def stepAfterDedup (q : String) (a : PArticle) (e : StepEnv) (s : RunState) : StepOut :=
  if tooOld a e then
    { state := { s with skipped := s.skipped + 1 }, brake := false, events := noEvents }
  else stepRewrite q a e s

/-- One iteration of `for article in articles` (lines 1102-1292): the
dedup gate (lines 1106-1111) runs first — an already-processed url is
counted as skipped and nothing else happens; otherwise the url is added
to the processed set and the iteration continues. -/
def step (q : String) (a : PArticle) (e : StepEnv) (s : RunState) : StepOut :=
  if a.url ∈ s.processed then
    { state := { s with skipped := s.skipped + 1 }, brake := false, events := noEvents }
  else
    stepAfterDedup q a e { s with processed := setInsert a.url s.processed }

/-- `for article in articles` with `break` handling. -/
def runArticles (q : String) : List (PArticle × StepEnv) → RunState → RunState
  | [], s => s
  | (a, e) :: rest, s =>
    let out := step q a e s
    if out.brake then out.state else runArticles q rest out.state

/-- One search query (lines 1077-1100): the fetched statistic grows by
the number of candidate articles, then the article loop runs. -/
def runQuery (qr : String × List (PArticle × StepEnv)) (s : RunState) : RunState :=
  runArticles qr.1 qr.2 { s with fetched := s.fetched + qr.2.length }

/-- `for i, query in enumerate(search_queries)` (line 1077). -/
def runQueries : List (String × List (PArticle × StepEnv)) → RunState → RunState
  | [], s => s
  | qr :: rest, s => runQueries rest (runQuery qr s)

/-! ### Structural lemmas about the loop body -/

theorem stepCreate_processed_rewrites (q : String) (a : PArticle) (e : StepEnv)
    (s : RunState) (p : ParsedLLM) (t : String) :
    (stepCreate q a e s p t).state.processed = s.processed ∧
      (stepCreate q a e s p t).state.rewrites = s.rewrites := by
  unfold stepCreate
  rcases e.createResult with _ | pid
  · exact ⟨rfl, rfl⟩
  · by_cases hi : a.image ≠ ""
    · rcases hu : e.uploadResult with _ | mid <;> simp [hi, hu]
    · simp [hi]

theorem stepParsed_processed_rewrites (q : String) (a : PArticle) (e : StepEnv)
    (s : RunState) :
    (stepParsed q a e s).state.processed = s.processed ∧
      (stepParsed q a e s).state.rewrites = s.rewrites := by
  unfold stepParsed
  dsimp only
  split
  · exact ⟨rfl, rfl⟩
  · exact stepCreate_processed_rewrites q a e s _ _

theorem stepRewrite_processed_rewrites (q : String) (a : PArticle) (e : StepEnv)
    (s : RunState) :
    (stepRewrite q a e s).state.processed = s.processed ∧
      (stepRewrite q a e s).state.rewrites = s.rewrites ++ [a.url] := by
  unfold stepRewrite
  split
  · exact ⟨rfl, rfl⟩
  · exact stepParsed_processed_rewrites q a e _

theorem stepAfterDedup_processed_rewrites (q : String) (a : PArticle) (e : StepEnv)
    (s : RunState) :
    (stepAfterDedup q a e s).state.processed = s.processed ∧
      ((stepAfterDedup q a e s).state.rewrites = s.rewrites ∨
        (stepAfterDedup q a e s).state.rewrites = s.rewrites ++ [a.url]) := by
  unfold stepAfterDedup
  split
  · exact ⟨rfl, Or.inl rfl⟩
  · exact ⟨(stepRewrite_processed_rewrites q a e s).1,
      Or.inr (stepRewrite_processed_rewrites q a e s).2⟩

/-- Characterization of one iteration: the processed set only grows, and
the rewrite log either stays or gains exactly the article url, which was
not yet processed and is processed afterwards. -/
theorem step_char (q : String) (a : PArticle) (e : StepEnv) (s : RunState) :
    (∀ x ∈ s.processed, x ∈ (step q a e s).state.processed) ∧
      ((step q a e s).state.rewrites = s.rewrites ∨
        ((step q a e s).state.rewrites = s.rewrites ++ [a.url] ∧ a.url ∉ s.processed ∧
          a.url ∈ (step q a e s).state.processed)) := by
  unfold step
  split
  · exact ⟨fun x hx => hx, Or.inl rfl⟩
  · rename_i hnew
    have h := stepAfterDedup_processed_rewrites q a e
      { s with processed := setInsert a.url s.processed }
    constructor
    · intro x hx
      rw [h.1]
      exact (mem_setInsert x a.url s.processed).mpr (Or.inr hx)
    · rcases h.2 with h2 | h2
      · exact Or.inl h2
      · refine Or.inr ⟨h2, hnew, ?_⟩
        rw [h.1]
        exact (mem_setInsert a.url a.url s.processed).mpr (Or.inl rfl)

/-- The run invariant behind C3: the initial processed set is preserved,
the rewrite log has no duplicates, every logged url is in the processed
set, and no initially-processed url has been logged. -/
def C3Inv (s0 s : RunState) : Prop :=
  (∀ u ∈ s0.processed, u ∈ s.processed) ∧
  s.rewrites.Nodup ∧
  (∀ u ∈ s.rewrites, u ∈ s.processed) ∧
  (∀ u ∈ s0.processed, u ∉ s.rewrites)

theorem step_preserves_C3Inv (s0 : RunState) (q : String) (a : PArticle)
    (e : StepEnv) (s : RunState) (h : C3Inv s0 s) :
    C3Inv s0 (step q a e s).state := by
  obtain ⟨h0, hnd, hmem, hdisj⟩ := h
  obtain ⟨hmono, hcases⟩ := step_char q a e s
  rcases hcases with hr | ⟨hr, hnew, hin⟩
  · exact ⟨fun u hu => hmono u (h0 u hu), by rw [hr]; exact hnd,
      fun u hu => hmono u (hmem u (hr ▸ hu)), fun u hu => hr ▸ hdisj u hu⟩
  · refine ⟨fun u hu => hmono u (h0 u hu), ?_, ?_, ?_⟩
    · rw [hr, List.nodup_append]
      exact ⟨hnd, List.nodup_singleton _,
        fun x hx hx1 => hnew ((List.mem_singleton.mp hx1) ▸ hmem x hx)⟩
    · intro u hu
      rw [hr] at hu
      rcases List.mem_append.mp hu with hu | hu
      · exact hmono u (hmem u hu)
      · rw [List.mem_singleton.mp hu]
        exact hin
    · intro u hu
      rw [hr]
      intro hcontra
      rcases List.mem_append.mp hcontra with hc | hc
      · exact hdisj u hu hc
      · exact hnew ((List.mem_singleton.mp hc) ▸ h0 u hu)

theorem runArticles_preserves_C3Inv (s0 : RunState) (q : String)
    (l : List (PArticle × StepEnv)) :
    ∀ s, C3Inv s0 s → C3Inv s0 (runArticles q l s) := by
  induction l with
  | nil => intro s h; exact h
  | cons ae rest ih =>
    intro s h
    rw [runArticles]
    split
    · exact step_preserves_C3Inv s0 q ae.1 ae.2 s h
    · exact ih _ (step_preserves_C3Inv s0 q ae.1 ae.2 s h)

theorem runQueries_preserves_C3Inv (s0 : RunState)
    (qs : List (String × List (PArticle × StepEnv))) :
    ∀ s, C3Inv s0 s → C3Inv s0 (runQueries qs s) := by
  induction qs with
  | nil => intro s h; exact h
  | cons qr rest ih =>
    intro s h
    rw [runQueries]
    exact ih _ (runArticles_preserves_C3Inv s0 qr.1 qr.2 _ h)

/-- **C3** (confirmed).  An article whose url is already in the processed
set is skipped immediately: the skipped statistic grows by exactly 1 and
nothing else happens (no rewrite call, no post-creation call, no state
change, no break).  Moreover, over a whole run, no url is ever submitted
for rewriting twice, and urls present in the ledger at run start are
never submitted at all. -/
theorem C3_dedup_no_double_processing :
    (∀ q a e s, a.url ∈ s.processed →
      step q a e s =
        { state := { s with skipped := s.skipped + 1 }, brake := false,
          events := noEvents }) ∧
    (∀ qs s0, s0.rewrites = [] →
      (runQueries qs s0).rewrites.Nodup ∧
      ∀ u ∈ s0.processed, u ∉ (runQueries qs s0).rewrites) := by
  constructor
  · intro q a e s h
    unfold step
    rw [if_pos h]
  · intro qs s0 h0
    have hinv : C3Inv s0 s0 := by
      refine ⟨fun u hu => hu, ?_, ?_, ?_⟩ <;> simp [h0]
    have := runQueries_preserves_C3Inv s0 qs s0 hinv
    exact ⟨this.2.1, this.2.2.2⟩

/-- Concrete article, environment and state for the C3 witness: the
end-to-end scenario of the spec (term "DJI", url already in the ledger). -/
def c3Article : PArticle :=
  { url := "http://example.com/a", title := "A", description := "D",
    domain := "example.com", age := "1 day ago", image := "",
    published_time := "", source := "" }

/-- Oracle results for the C3 witness (never consulted: the dedup gate
fires first). -/
def c3Env : StepEnv :=
  { tone := "", rssAgeDays := none, llmResponse := "",
    tagCreate := fun _ => none, parsedDate := none, createResult := none,
    uploadResult := none, attachResult := false }

/-- Run state for the C3 witness: the ledger already holds the url. -/
def c3State : RunState :=
  { processed := ["http://example.com/a"], fetched := 1, processedCount := 0,
    created := 0, skipped := 0, errors := 0, rewrites := [], creates := [],
    publishes := [] }

/-- Witness for C3: with the url already in the ledger, the step only
increments `skipped`. -/
theorem C3_dedup_no_double_processing_witness :
    step "DJI" c3Article c3Env c3State =
      { state := { c3State with skipped := c3State.skipped + 1 }, brake := false,
        events := noEvents } :=
  C3_dedup_no_double_processing.1 "DJI" c3Article c3Env c3State (by decide)

/-- **C5** (confirmed).  A successfully rewritten article whose body has
fewer than 400 words is skipped before any draft is created: the step
performs no post-creation call, leaves the error counter alone, and
increments exactly the skipped statistic. -/
theorem C5_quality_reject (q : String) (a : PArticle) (e : StepEnv) (s : RunState)
    (hdup : a.url ∉ s.processed) (hage : tooOld a e = false)
    (hllm : e.llmResponse ≠ "")
    (hwc : pyWordCount
      (parseLLMResponse e.llmResponse (strip_title_site_names a.title)).newContent < 400) :
    step q a e s =
      { state := { s with
                   processed := setInsert a.url s.processed
                   rewrites := s.rewrites ++ [a.url]
                   skipped := s.skipped + 1 }
        brake := false
        events := { noEvents with rewriteCalled := true } } := by
  unfold step
  rw [if_neg hdup]
  unfold stepAfterDedup
  rw [if_neg (by simp [hage])]
  unfold stepRewrite
  rw [if_neg (by simp [hllm])]
  unfold stepParsed
  rw [if_pos (by simpa using hwc)]

/-- Concrete article for the C5 witness. -/
def c5Article : PArticle :=
  { url := "http://example.com/short", title := "Short", description := "D",
    domain := "example.com", age := "", image := "http://example.com/i.jpg",
    published_time := "", source := "" }

/-- Oracle results for the C5 witness: a successful rewrite whose body is
3 words (well under the 400-word threshold). -/
def c5Env : StepEnv :=
  { tone := "", rssAgeDays := none,
    llmResponse := "HEADLINE: Short headline\nARTICLE: too few words",
    tagCreate := fun _ => some 1, parsedDate := none, createResult := some 9,
    uploadResult := some 5, attachResult := true }

/-- Fresh run state for the C5 witness. -/
def c5State : RunState :=
  { processed := [], fetched := 1, processedCount := 0, created := 0,
    skipped := 0, errors := 0, rewrites := [], creates := [], publishes := [] }

/-- Witness for C5: the 3-word rewrite is skipped with no create call. -/
theorem C5_quality_reject_witness :
    step "DJI" c5Article c5Env c5State =
      { state := { c5State with
                   processed := setInsert c5Article.url c5State.processed
                   rewrites := c5State.rewrites ++ [c5Article.url]
                   skipped := c5State.skipped + 1 }
        brake := false
        events := { noEvents with rewriteCalled := true } } :=
  C5_quality_reject "DJI" c5Article c5Env c5State (by decide) (by decide)
    (by decide) (by decide)

/-! ## Policy reminder posts (cnd_news_pipeline.py lines 74-197 and
1311-1385) -/

/-- One entry of `PLATFORM_POLICIES`: the keys the policy-post generator
reads (`name`, `policies`, `hashtags`; the facebook-only `page_url` and
`handle` keys are never read by it and are elided). -/
structure PolicyData where
  name : String
  policies : List String
  hashtags : List String

/-- The `"general"` entry of `PLATFORM_POLICIES` (lines 178-193), also
the fallback of `PLATFORM_POLICIES.get(platform, ...)`. -/
def generalPolicy : PolicyData :=
  { name := "General Creator"
    policies :=
      ["FTC Disclosure - clearly disclose sponsorships with #ad, #sponsored",
       "GDPR/CCPA - handle viewer data responsibly",
       "Terms of Service - read and follow each platform's ToS",
       "Age restrictions - different features require different ages (13+, 18+, 21+)",
       "Account security - use strong passwords, enable 2FA",
       "Content ownership - you own what you create (unless work for hire)",
       "Contract basics - get deals in writing, understand your rights",
       "Taxes - income from content creation is taxable",
       " trademark - don't use others' trademarks without permission",
       "Fair use - limited, consult lawyer for commercial use"]
    hashtags := ["#CreatorTips", "#ContentCreation", "#CreatorEconomy"] }

/-- `PLATFORM_POLICIES` (lines 74-194), in insertion order. -/
def PLATFORM_POLICIES : List (String × PolicyData) :=
  [("facebook",
    { name := "Facebook"
      policies :=
        ["Community Standards - no hate speech, violence, harassment, misinformation",
         "Content moderation - AI + human reviewers, 3 strikes = account restriction",
         "Monetization - in-stream ads require 10K followers, 600K minutes viewed",
         "Branded Content - must use branded content tool, disclose partnerships",
         "Copyright - use Content ID, 3 strikes = page deletion possible",
         "Personal account vs Page - Pages need admin who must use real name, can't run personal ad accounts without business verification, Page admins visible to public",
         "Facebook Reels - 30-90 seconds, vertical format, no watermarks",
         "Live streaming - 1000 followers minimum for stars/gifts",
         "Meta Verified - requires government ID, $11.99/month for blue badge",
         "Advertising policies - must follow ad rules, no banned content, political ads need authorization",
         "Reel bonuses - follow engagement guidelines for bonus eligibility",
         "Group rules - admins must enforce community guidelines, weekly activity needed",
         "Shop rules - e-commerce must follow commerce policies, product approval required",
         "Meta AI - content created by AI must be labeled as AI-generated",
         "Teen safety - ages 13-17 have restricted features, parental supervision required"]
      hashtags := ["#FacebookTips", "#CreatorCommunity", "#MetaVerified", "#CreatorsListenUp"] }),
   ("youtube",
    { name := "YouTube"
      policies :=
        ["Advertiser-friendly content guidelines - no violence, profanity, harmful behavior",
         "Community Guidelines - no hate speech, harassment, spam, misinformation",
         "Monetization requirements - 1000 subscribers + 4000 watch hours OR 10M Shorts views",
         "Copyright strike system - 3 strikes = channel termination",
         "Content ID - creators can claim copyrighted material in your videos",
         "YouTube Shorts rules - max 60 seconds, no watermarks, vertical format",
         "Live stream requirements - verified + no live strikes for 90 days",
         "Ad revenue share - creators get 55% of ad revenue",
         "Super Chat & Super Stickers - must be 18+ or 13+ with supervised accounts",
         "YouTube Partner Program policies - no reused content, no engagement manipulation"]
      hashtags := ["#YouTubeTips", "#CreatorCommunity", "#YouTubePartner"] }),
   ("tiktok",
    { name := "TikTok"
      policies :=
        ["Community Guidelines - no hate speech, dangerous acts, harassment, drugs",
         "Content policy - no nudity, sexual content, violence, misinformation",
         "Creator fund requirements - 10K followers, 100K views in last 30 days",
         "Live streaming rules - 16+ for live, 18+ for gifts/badges",
         "Music usage - only use sounds from TikTok library",
         "Duet & Stitch guidelines - respect original creator's settings",
         "Branded content toggle - must disclose sponsorships",
         "Copyright - 3 strikes = account ban",
         "Under 13 - no accounts allowed, will be removed",
         "TikTok Shop policies - varies by region, follow local laws"]
      hashtags := ["#TikTokTips", "#CreatorEconomy", "#TikTok"] }),
   ("instagram",
    { name := "Instagram"
      policies :=
        ["Community Guidelines - no hate speech, bullying, harassment",
         "Creator rules - no nudity, sexual content, violence",
         "Monetization - badges, IGTV ads, branded content (varies by country)",
         "Branded content - must use 'Paid partnership' label",
         "Copyright - reuse others' content without permission = removal",
         "Reels bonuses - follow community guidelines for bonus programs",
         "Live badges - 18+ requirement",
         "Shopping - must have business account, follow commerce policies",
         "Account security - 2FA recommended, beware of phishing",
         "Follow engagement pods - can result in reduced reach"]
      hashtags := ["#InstagramTips", "#Creator", "#Insta"] }),
   ("twitch",
    { name := "Twitch"
      policies :=
        ["Community Guidelines - no hate speech, harassment, violence, illegal content",
         "Terms of Service - must be 13+, partner program rules",
         "Partner requirements - 75 concurrent viewers, 3 average viewers, broadcast 25+ hours",
         "Affiliate requirements - 50 followers, 7 unique broadcasts, 3 avg viewers",
         "Copyright music - copyrighted music = potential strike/ mute",
         "Hate content policy - zero tolerance for hate speech",
         "Self-harm policy - resources provided, may require pause",
         "Saturated fat & drugs - no promotion of unhealthy products to minors",
         "Raiding - positive raiding culture encouraged",
         "Extensions - must follow extension policies"]
      hashtags := ["#TwitchTips", "#TwitchStreamer", "#LiveStreaming"] }),
   ("podcasting",
    { name := "Podcasting"
      policies :=
        ["Apple Podcasts guidelines - no hate speech, explicit content must be marked",
         "Spotify policies - no misinformation, branded content disclosure required",
         "RSS feed requirements - valid feed, proper episode metadata",
         "Copyright - music licensing for all audio content",
         "Sponsorship disclosure - clearly state sponsored content",
         "Privacy - don't share personal info of others without consent",
         "Recording consent - laws vary by state on recording conversations",
         "Content ratings - tag explicit content appropriately",
         "Ad reads - FTC requires clear sponsorship disclosure",
         "Distribution rights - ensure you have rights to all content distributed"]
      hashtags := ["#PodcastTips", "#Creator", "#Podcasting"] }),
   ("general", generalPolicy)]

/-- `POLICY_REMINDER_HASHTAG` (line 197). -/
def POLICY_REMINDER_HASHTAG : String := "#CreatorsListenUp"

/-- One WordPress API call the pipeline can issue. -/
inductive WpCall : Type where
  | createTag : String → WpCall
  | createPost : WpPostReq → WpCall
  | uploadMedia : String → WpCall
  | setFeatured : Nat → Nat → WpCall
  | updateStatus : Nat → String → WpCall
  deriving DecidableEq

/-- Whether a call touches the media library / featured image. -/
def isMediaCall : WpCall → Bool
  | .uploadMedia _ => true
  | .setFeatured _ _ => true
  | _ => false

/-- Result of `generate_policy_reminder_post`: the WordPress calls it
issues (in order), the post-creation request, and the returned post id. -/
structure PolicyPostOut where
  calls : List WpCall
  req : WpPostReq
  postId : Option Nat

/-- `generate_policy_reminder_post(auth, platform)` (lines 1311-1373).
`choiceIdx` resolves the `random.choice` over the policy list; `tagCreate`
and `createResult` are the WordPress-call oracles.  The function creates
the post directly with `status="publish"`, with no media upload and no
featured image (the source comments that image generation is skipped). -/
def generate_policy_reminder_post (platform : String) (choiceIdx : Nat)
    (tagCreate : String → Option Nat) (createResult : Option Nat) : PolicyPostOut :=
  let pd :=
    match PLATFORM_POLICIES.find? (fun p => p.1 == platform) with
    | some p => p.2
    | none => generalPolicy
  let selectedPolicy :=
    if pd.policies.isEmpty then "Stay updated on platform policies!"
    else pd.policies.getD (choiceIdx % pd.policies.length) ""
  let siteUrl := "https://www.creatornewsdesk.com"
  let content := String.intercalate "\n"
    ["<h2>" ++ POLICY_REMINDER_HASHTAG ++ " " ++ pd.name ++ " Tip</h2>",
     "<p><strong>Quick Tip:</strong> " ++ selectedPolicy ++ "</p>",
     "<p>Want more " ++ pd.name ++ " tips? We've got a full breakdown of "
       ++ pd.name ++ " policies every creator needs to know.</p>",
     "<p><a href=\"" ++ siteUrl ++ "\" class=\"button\">Read the Full Guide on Our Site</a></p>",
     "<p>" ++ POLICY_REMINDER_HASHTAG ++ " Follow: @xmatthewxmurphyx</p>"]
  let seoTitle := pd.name ++ " Creator Tip of the Day - " ++ POLICY_REMINDER_HASHTAG
  let metaDesc := "Daily creator tip: " ++ pd.name ++ " policies you need to know. "
    ++ POLICY_REMINDER_HASHTAG
  let tagNames := ["creators", "creatorslistenup", pyLower pd.name]
  let tagIds := tagNames.filterMap tagCreate
  let socialTags := ["CreatorsListenUp", pyLower pd.name].map (fun t => "#" ++ t)
  let socialMessage := pyTake seoTitle 200 ++ " " ++ String.intercalate " " socialTags
  let req : WpPostReq :=
    { title := seoTitle
      content := content
      status := "publish"
      categories := [10]
      tags := tagIds
      seoTitle := seoTitle
      seoDescription := metaDesc
      featuredImage := none
      postDate := none
      socialMessage := some socialMessage }
  { calls := tagNames.map WpCall.createTag ++ [WpCall.createPost req]
    req := req
    postId := createResult }

/-! ### C1: publication requires a media id (article path) but the policy
post is published directly -/

/-- The six possible event shapes of one loop iteration: no calls (skip),
rewrite only (LLM failure or quality reject), failed create, publish
(create + image + upload all succeeded), created-but-upload-failed, and
created-without-image.  Every create request has status `draft`. -/
theorem step_events_shape (q : String) (a : PArticle) (e : StepEnv) (s : RunState) :
    ((step q a e s).events = noEvents) ∨
    ((step q a e s).events = { noEvents with rewriteCalled := true }) ∨
    (∃ r, r.status = "draft" ∧ e.createResult = none ∧
      (step q a e s).events =
        { noEvents with rewriteCalled := true, createReq := some r }) ∨
    (∃ r pid mid, r.status = "draft" ∧ e.createResult = some pid ∧ a.image ≠ "" ∧
      e.uploadResult = some mid ∧
      (step q a e s).events =
        { rewriteCalled := true, createReq := some r, createdId := some pid,
          uploadedMedia := some mid, attachCalled := true, publishCalled := true }) ∨
    (∃ r pid, r.status = "draft" ∧ e.createResult = some pid ∧ a.image ≠ "" ∧
      e.uploadResult = none ∧
      (step q a e s).events =
        { rewriteCalled := true, createReq := some r, createdId := some pid,
          uploadedMedia := none, attachCalled := false, publishCalled := false }) ∨
    (∃ r pid, r.status = "draft" ∧ e.createResult = some pid ∧ a.image = "" ∧
      (step q a e s).events =
        { rewriteCalled := true, createReq := some r, createdId := some pid,
          uploadedMedia := none, attachCalled := false, publishCalled := false }) := by
  unfold step
  split
  · exact Or.inl rfl
  · unfold stepAfterDedup
    split
    · exact Or.inl rfl
    · unfold stepRewrite
      dsimp only
      split
      · exact Or.inr (Or.inl rfl)
      · unfold stepParsed
        dsimp only
        split
        · exact Or.inr (Or.inl rfl)
        · unfold stepCreate
          dsimp only
          cases hc : e.createResult with
          | none =>
            exact Or.inr (Or.inr (Or.inl ⟨_, rfl, rfl, rfl⟩))
          | some pid =>
            dsimp only
            by_cases hi : a.image ≠ ""
            · rw [if_pos hi]
              cases hu : e.uploadResult with
              | some mid =>
                exact Or.inr (Or.inr (Or.inr (Or.inl
                  ⟨_, pid, mid, rfl, rfl, hi, rfl, rfl⟩)))
              | none =>
                exact Or.inr (Or.inr (Or.inr (Or.inr (Or.inl
                  ⟨_, pid, rfl, rfl, hi, rfl, rfl⟩))))
            · rw [if_neg hi]
              push_neg at hi
              exact Or.inr (Or.inr (Or.inr (Or.inr (Or.inr
                ⟨_, pid, rfl, rfl, hi, rfl⟩))))

/-- **C1 as amended** (corrected).  Article posts created by the main loop
are always created with status `draft`; the publish status update fires
exactly when the post was created and the article had an image url and
the media upload returned a media id (the `set_featured_image` result is
not checked before publishing); when the upload fails or there is no
image, a created post stays in `draft`.  Policy reminder posts, by
contrast, are created directly with status `publish` and issue no
media-library call at all. -/
theorem C1_amended_publish_only_with_media (q : String) (a : PArticle)
    (e : StepEnv) (s : RunState) :
    (∀ r, (step q a e s).events.createReq = some r → r.status = "draft") ∧
    (∀ pid, (step q a e s).events.createdId = some pid → e.createResult = some pid) ∧
    ((step q a e s).events.publishCalled = true ↔
      ((step q a e s).events.createdId.isSome = true ∧ a.image ≠ "" ∧
        e.uploadResult.isSome = true)) ∧
    ((step q a e s).events.finalStatus = some "draft" ↔
      ((step q a e s).events.createdId.isSome = true ∧
        ¬(a.image ≠ "" ∧ e.uploadResult.isSome = true))) ∧
    (∀ platform idx tagc cr,
      (generate_policy_reminder_post platform idx tagc cr).req.status = "publish" ∧
      (generate_policy_reminder_post platform idx tagc cr).calls.all
        (fun c => !isMediaCall c) = true) := by
  have hs := step_events_shape q a e s
  refine ⟨?_, ?_, ?_, ?_, fun platform idx tagc cr => ⟨rfl, rfl⟩⟩
  · intro r hr
    rcases hs with h | h | ⟨r2, hst, _, h⟩ | ⟨r2, pid, mid, hst, _, _, _, h⟩ |
      ⟨r2, pid, hst, _, _, _, h⟩ | ⟨r2, pid, hst, _, _, h⟩
    · rw [h] at hr; simp [noEvents] at hr
    · rw [h] at hr; simp [noEvents] at hr
    · rw [h] at hr; injection hr with hinj; exact hinj ▸ hst
    · rw [h] at hr; injection hr with hinj; exact hinj ▸ hst
    · rw [h] at hr; injection hr with hinj; exact hinj ▸ hst
    · rw [h] at hr; injection hr with hinj; exact hinj ▸ hst
  · intro pid hpid
    rcases hs with h | h | ⟨r2, _, _, h⟩ | ⟨r2, pid2, mid, _, hc, _, _, h⟩ |
      ⟨r2, pid2, _, hc, _, _, h⟩ | ⟨r2, pid2, _, hc, _, h⟩
    · rw [h] at hpid; simp [noEvents] at hpid
    · rw [h] at hpid; simp [noEvents] at hpid
    · rw [h] at hpid; simp [noEvents] at hpid
    · rw [h] at hpid; injection hpid with hinj; exact hinj ▸ hc
    · rw [h] at hpid; injection hpid with hinj; exact hinj ▸ hc
    · rw [h] at hpid; injection hpid with hinj; exact hinj ▸ hc
  · rcases hs with h | h | ⟨r2, _, hc, h⟩ | ⟨r2, pid2, mid, _, hc, hi, hu, h⟩ |
      ⟨r2, pid2, _, hc, hi, hu, h⟩ | ⟨r2, pid2, _, hc, hi, h⟩
    · rw [h]; simp [noEvents]
    · rw [h]; simp [noEvents]
    · rw [h]; simp [noEvents]
    · rw [h]; simp [hi, hu]
    · rw [h]; simp [hu]
    · rw [h]; simp [hi]
  · rcases hs with h | h | ⟨r2, _, hc, h⟩ | ⟨r2, pid2, mid, _, hc, hi, hu, h⟩ |
      ⟨r2, pid2, _, hc, hi, hu, h⟩ | ⟨r2, pid2, _, hc, hi, h⟩
    · rw [h]; simp [noEvents, StepEvents.finalStatus]
    · rw [h]; simp [noEvents, StepEvents.finalStatus]
    · rw [h]; simp [noEvents, StepEvents.finalStatus]
    · rw [h]; simp [StepEvents.finalStatus, hi, hu]
    · rw [h]; simp [StepEvents.finalStatus, hi, hu]
    · rw [h]; simp [StepEvents.finalStatus, hi]

/-- **C1 counterexample**.  The pipeline publishes a post without any
successfully attached featured image: `generate_policy_reminder_post`
(invoked from `main` via `maybe_generate_policy_post`) creates its post
directly with `status="publish"` and issues no media-library call at all. -/
theorem C1_policy_post_published_without_image :
    (generate_policy_reminder_post "youtube" 0 (fun _ => some 1) (some 42)).req.status
      = "publish" ∧
    WpCall.createPost (generate_policy_reminder_post "youtube" 0 (fun _ => some 1) (some 42)).req
      ∈ (generate_policy_reminder_post "youtube" 0 (fun _ => some 1) (some 42)).calls ∧
    (generate_policy_reminder_post "youtube" 0 (fun _ => some 1) (some 42)).calls.all
      (fun c => !isMediaCall c) = true := by
  refine ⟨rfl, ?_, rfl⟩
  simp [generate_policy_reminder_post]

/-- A 400-word body (each word is `w`), used to drive the step past the
quality gate in concrete runs. -/
def longBody : String := String.intercalate " " (List.replicate 400 "w")

/-- Concrete article for the C1 witness: it has an image url. -/
def c1Article : PArticle :=
  { url := "http://example.com/pub", title := "T", description := "D",
    domain := "example.com", age := "", image := "http://example.com/i.jpg",
    published_time := "", source := "" }

/-- Oracle results for the C1 witness: rewrite, create and upload all
succeed. -/
def c1Env : StepEnv :=
  { tone := "", rssAgeDays := none,
    llmResponse := "HEADLINE: T\nARTICLE: " ++ longBody,
    tagCreate := fun _ => none, parsedDate := none, createResult := some 7,
    uploadResult := some 3, attachResult := true }

/-- Fresh run state for the C1 witness. -/
def c1State : RunState :=
  { processed := [], fetched := 1, processedCount := 0, created := 0,
    skipped := 0, errors := 0, rewrites := [], creates := [], publishes := [] }

/-- Witness for the amended C1: with a created post, an image url, and a
successful upload, the publish status update fires. -/
theorem C1_amended_publish_only_with_media_witness :
    (step "DJI" c1Article c1Env c1State).events.publishCalled = true :=
  (C1_amended_publish_only_with_media "DJI" c1Article c1Env c1State).2.2.1.mpr
    ⟨by decide, by decide, by decide⟩

/-! ## C4: missing headline/body fields in the rewrite response -/

/-- The dictionary `generate_article` returns (llm_generate_post.py lines
286-291); field values are raw JSON values from the parsed response. -/
structure GenPost where
  title : JVal
  content : JVal
  excerpt : JVal
  tags : JVal

/-- `generate_article(article, provider)` from llm_generate_post.py
(lines 229-291).  `llmResult` is the provider response text (`""` models
every failure path) and `parsed` is the `extract_json` result (the pure
JSON parsing is an oracle input; `[]` models an unparsable response,
matching the `\x7b\x7d` the source returns).  A missing `title` or
`content` key falls back to the source article title/description — no
error of any kind is signalled. -/
def generate_article (articleTitle articleDescription : String)
    (llmResult : String) (parsed : JObj) : GenPost :=
  if llmResult = "" then
    { title := .jstr articleTitle, content := .jstr articleDescription,
      excerpt := .jstr "", tags := .jarr [] }
  else
    { title := pyGetD parsed "title" (.jstr articleTitle)
      content := pyGetD parsed "content" (.jstr articleDescription)
      excerpt := pyGetD parsed "excerpt" (.jstr "")
      tags := pyGetD parsed "tags" (.jarr []) }

theorem foldl_parseLine_seoTitle (lines : List String) (st : ParsedLLM)
    (h : ∀ line ∈ lines, pyStartsWith (pyStrip line) "HEADLINE:" = false) :
    (lines.foldl parseLine st).seoTitle = st.seoTitle := by
  induction lines generalizing st with
  | nil => rfl
  | cons l rest ih =>
    rw [List.foldl_cons, ih _ (fun x hx => h x (List.mem_cons_of_mem _ hx))]
    unfold parseLine
    dsimp only
    rw [h l (List.mem_cons_self _ _)]
    simp only [Bool.false_eq_true, if_false]
    split
    · rfl
    · split
      · rfl
      · split <;> rfl

/-- Concrete article for the C4 counterexample. -/
def c4Article : PArticle :=
  { url := "http://example.com/nohl", title := "Original Title", description := "D",
    domain := "example.com", age := "", image := "",
    published_time := "", source := "" }

/-- The rewrite response for the C4 counterexample: it has no HEADLINE
line (the headline field is missing) but a 400-word ARTICLE body. -/
def c4Resp : String := "META: m\nARTICLE: " ++ longBody

/-- Oracle results for the C4 counterexample: the create call succeeds. -/
def c4Env : StepEnv :=
  { tone := "", rssAgeDays := none, llmResponse := c4Resp,
    tagCreate := fun _ => none, parsedDate := none, createResult := some 7,
    uploadResult := none, attachResult := false }

/-- Fresh run state for the C4 counterexample. -/
def c4State : RunState :=
  { processed := [], fetched := 1, processedCount := 0, created := 0,
    skipped := 0, errors := 0, rewrites := [], creates := [], publishes := [] }

/-- **C4 counterexample**.  With a rewrite response whose headline field
is missing, the pipeline does not signal any error: the parse falls back
to the cleaned original title, and a WordPress post IS created for the
article (the create call is issued and returns post id 7). -/
theorem C4_missing_headline_still_creates_post :
    (∀ line ∈ pyLines c4Resp, pyStartsWith (pyStrip line) "HEADLINE:" = false) ∧
    (parseLLMResponse c4Resp (strip_title_site_names c4Article.title)).seoTitle
      = strip_title_site_names c4Article.title ∧
    (step "DJI" c4Article c4Env c4State).events.createReq.isSome = true ∧
    (step "DJI" c4Article c4Env c4State).events.createdId = some 7 := by
  refine ⟨by decide, by decide, by decide, by decide⟩

/-- **C4 as amended** (corrected).  When the rewrite response is missing
the headline field, no error is signalled anywhere: the pipeline parser
keeps the cleaned original article title as the seo title (and, in
`generate_article`, a missing `title`/`content` key falls back to the
source title/description); post creation proceeds normally when the other
gates pass. -/
theorem C4_amended_missing_fields_fall_back :
    (∀ (title resp : String),
      (∀ line ∈ pyLines resp, pyStartsWith (pyStrip line) "HEADLINE:" = false) →
      (parseLLMResponse resp (strip_title_site_names title)).seoTitle
        = strip_title_site_names title) ∧
    (∀ (aT aD lr : String) (parsed : JObj), lr ≠ "" → pyGet parsed "title" = none →
      (generate_article aT aD lr parsed).title = .jstr aT) ∧
    (∀ (aT aD lr : String) (parsed : JObj), lr ≠ "" → pyGet parsed "content" = none →
      (generate_article aT aD lr parsed).content = .jstr aD) := by
  refine ⟨fun title resp h => ?_, fun aT aD lr parsed hlr hp => ?_,
    fun aT aD lr parsed hlr hp => ?_⟩
  · exact foldl_parseLine_seoTitle (pyLines resp) _ h
  · simp [generate_article, hlr, pyGetD, hp]
  · simp [generate_article, hlr, pyGetD, hp]

/-- Witness for the amended C4: the concrete headline-free response keeps
the original title, and a missing `title` key in the parsed object makes
`generate_article` fall back to the source title. -/
theorem C4_amended_missing_fields_fall_back_witness :
    (parseLLMResponse c4Resp (strip_title_site_names "Original Title")).seoTitle
      = strip_title_site_names "Original Title" ∧
    (generate_article "Orig" "Desc" "x" []).title = .jstr "Orig" :=
  ⟨C4_amended_missing_fields_fall_back.1 "Original Title" c4Resp (by decide),
   C4_amended_missing_fields_fall_back.2.1 "Orig" "Desc" "x" [] (by decide) (by rfl)⟩
